import Mathlib

/-!
# Verification of the Tim's hockey challenge autopicker backtest core

Shallow embedding of the backtesting and ranking engine of the repository
(`autopicker/nhl_api_client.py`, `autopicker/backtest.py`), together with
theorems settling the frozen claims about the natural-language spec.

Conventions of the embedding:
* Python ints are `Int` (or `Nat` for counters that only ever grow from 0);
* Python floats on the statistics path are exact rationals `ℚ` (`round(x, 2)`
  becomes round-half-to-even at two decimals on `ℚ`);
* calendar dates are day numbers (`Int`): `datetime` comparison and
  `timedelta(days=1)` stepping are order/successor on `Int`;
* a `dict` whose insertion order matters is an association list, updated with
  position-preserving upsert (CPython dicts keep the original slot on update);
* network access is pure data passed in: a gateway call is a function from the
  request key to the payload, and the retry loops take the sequence of attempt
  outcomes as an explicit argument;
* a Python function that can let an exception escape to its caller returns an
  `Except`/outcome type, with one constructor per observable control path.
-/

namespace Autopicker

/-! ## `nhl_api_client.py` — landing payload and season-total selection -/

/-- One row of the landing payload's `seasonTotals` array: exactly the fields
`populate_player_stats` reads (`nhl_api_client.py`, lines 59-81). -/
structure SeasonRow where
  season : Int
  leagueAbbrev : String
  goals : Int
  points : Int
  shots : Int
  shootingPctg : ℚ
  plusMinus : Int
  avgToi : String
  gamesPlayed : Int
deriving Repr, DecidableEq

/-- One entry of the landing payload's `last5Games` array; the code reads only
`goals` (`nhl_api_client.py`, lines 70-71). -/
structure Last5Game where
  goals : Int
deriving Repr, DecidableEq

/-- The part of a player's `/landing` payload that `populate_player_stats`
consumes. -/
structure LandingPayload where
  seasonTotals : List SeasonRow
  last5Games : List Last5Game
deriving Repr, DecidableEq

/-- The `for season_total in reversed(player_data['seasonTotals'])` loop body
(`nhl_api_client.py`, lines 59-64), acting on the already-reversed list:
a row with a non-matching season breaks the loop with nothing selected; a
matching-season row with league `NHL` is selected and breaks the loop;
otherwise the scan moves to the next (earlier) row. -/
def scanRows (season : Int) : List SeasonRow → Option SeasonRow
  | [] => none
  | r :: rest =>
    if r.season ≠ season then none
    else if r.leagueAbbrev = "NHL" then some r
    else scanRows season rest

/-- Selection of `curr_season_totals` (`nhl_api_client.py`, lines 58-64):
scan `seasonTotals` from the back (most recent first). `none` is the
not-found signal (`curr_season_totals is None`). -/
def findCurrSeasonTotals (season : Int) (rows : List SeasonRow) : Option SeasonRow :=
  scanRows season rows.reverse

/-- Round a rational to the nearest integer, ties to even — the semantics of
Python's built-in `round` on the exact value. -/
def roundHalfToEven (q : ℚ) : Int :=
  let f : Int := ⌊q⌋
  let r : ℚ := q - f
  if r < 1/2 then f
  else if 1/2 < r then f + 1
  else if f % 2 = 0 then f else f + 1

/-- Python's `round(x, 2)` on the exact value: two-decimal rounding, ties to
even. -/
def round2 (q : ℚ) : ℚ :=
  (roundHalfToEven (100 * q) : ℚ) / 100

/-- Python's `str.split(sep)` for a one-character separator, on the character
list: split at every occurrence of `sep`; `''.split(sep)` is `['']`. -/
def splitChars (sep : Char) : List Char → List (List Char)
  | [] => [[]]
  | c :: rest =>
    if c = sep then [] :: splitChars sep rest
    else
      match splitChars sep rest with
      | [] => [[c]]
      | g :: gs => (c :: g) :: gs

/-- Accumulator loop for a decimal digit string. `none` models the
`ValueError` of Python's `int()` on a non-digit character. -/
def digitsValAux (acc : Nat) : List Char → Option Nat
  | [] => some acc
  | c :: rest =>
    if c.isDigit then digitsValAux (acc * 10 + (c.toNat - 48)) rest else none

/-- Value of a nonempty decimal digit string; `none` on the empty string or a
non-digit. -/
def digitsVal : List Char → Option Nat
  | [] => none
  | c :: rest => digitsValAux 0 (c :: rest)

/-- Python's `int()` on a string given as its character list: an optional
minus sign followed by decimal digits; `none` models `ValueError`. -/
def pyIntOfChars : List Char → Option Int
  | '-' :: rest => (digitsVal rest).map (fun n => -(n : Int))
  | l => (digitsVal l).map (fun n => (n : Int))

/-- `avgToi.split(':')` followed by `int(m), int(s)` (`nhl_api_client.py`,
line 78). `none` models the `ValueError` raised when the string does not have
exactly two integer components (it lands in the blanket `except Exception`). -/
def parseAvgToi (s : String) : Option (Int × Int) :=
  match splitChars ':' s.data with
  | [m, sec] =>
    match pyIntOfChars m, pyIntOfChars sec with
    | some mv, some sv => some (mv, sv)
    | _, _ => none
  | _ => none

/-- Modelled from the spec: the `Player` record class lives in `player.py`,
which is not under `src/`. Per §3 (*PlayerSeasonStats*: "return a not-found
signal rather than a zero-valued record", "never appears with goals=0") the
statistical fields of a freshly-constructed player are zero-valued, and the
aggregator writes them once (`write-once-then-read`). Identity fields come
from the constructor call in `backtest.py`, lines 102-110. -/
structure Player where
  id : Int
  fullName : String
  jerseyNumber : Int
  position : String
  teamAbbr : String
  goals : Int := 0
  points : Int := 0
  shots : Int := 0
  shotPercentage : ℚ := 0
  plusMinus : Int := 0
  timeOnIceSeconds : Int := 0
  gamesPlayed : Int := 0
  goalsPerGame : ℚ := 0
  recentGoals : Int := 0
  injured : Bool := false
deriving Repr, DecidableEq

/-- Observable outcomes of `populate_player_stats` (`nhl_api_client.py`,
lines 51-90). `ok` is the normal return with the stats written; `notFound` is
the early `return` at line 68 after the season-totals scan fails (the player
object is left untouched); `processExit` is the `except Exception` handler at
lines 88-90, whose `exit()` raises `SystemExit` and terminates the process
(the caller's `except Exception` in `backtest.py` does not catch it). -/
inductive PopulateResult where
  | ok (p : Player)
  | notFound (p : Player)
  | processExit
deriving Repr, DecidableEq

/-- `populate_player_stats` (`nhl_api_client.py`, lines 51-90), with the
fetched landing payload passed as data. Control flow of the source:
season-totals scan, early return when nothing matched; sum `last5Games`
goals into `recent_goals`; parse `avgToi` (a `ValueError` lands in the
blanket `except Exception` → `exit()`); compute
`round(1.0 * goals / games_played, 2)` — when `games_played` is `0` the
division raises `ZeroDivisionError`, also landing in the blanket handler →
`exit()`. -/
def populate_player_stats (season : Int) (injuredNames : List String)
    (payload : LandingPayload) (p : Player) : PopulateResult :=
  match findCurrSeasonTotals season payload.seasonTotals with
  | none => .notFound p
  | some row =>
    let p := { p with recentGoals := p.recentGoals + (payload.last5Games.map Last5Game.goals).sum }
    match parseAvgToi row.avgToi with
    | none => .processExit
    | some (m, s) =>
      if row.gamesPlayed = 0 then .processExit
      else
        .ok { p with
          goals := row.goals
          points := row.points
          shots := row.shots
          shotPercentage := row.shootingPctg
          plusMinus := row.plusMinus
          timeOnIceSeconds := m * 60 + s
          gamesPlayed := row.gamesPlayed
          goalsPerGame := round2 ((row.goals : ℚ) / (row.gamesPlayed : ℚ))
          injured := injuredNames.contains p.fullName }

/-! ## `nhl_api_client.py` — gateway calls under failure -/

/-- Outcome of one `requests.get(...)` + `raise_for_status()` attempt. -/
inductive Attempt where
  | success
  | httpError
  | netError
deriving Repr, DecidableEq

/-- Outcome of a gateway call as seen by its caller: a returned value, or an
exception escaping the function. -/
inductive FetchOutcome (α : Type) where
  | returns (a : α)
  | raises (exc : String)
deriving Repr, DecidableEq

/-- Shapes the schedule endpoint may answer with (`nhl_api_client.py`,
lines 133-139 normalize a dict carrying `dates`, a bare list, or a single
dict). `α` is the schedule-entry type. -/
inductive SchedJson (α : Type) where
  | dictWithDates (dates : List α)
  | listOf (entries : List α)
  | single (entry : α)
deriving Repr, DecidableEq

/-- Response normalization in `get_schedule_for_date` (`nhl_api_client.py`,
lines 134-139). -/
def normalizeSchedule {α : Type} : SchedJson α → List α
  | .dictWithDates ds => ds
  | .listOf ds => ds
  | .single d => [d]

/-- The `for attempt in range(1, 4)` loop of `get_schedule_for_date`
(`nhl_api_client.py`, lines 129-149), entered at attempt number `attempt`:
success returns the normalized payload; `HTTPError` is logged and degrades to
`[]` without retry; a `RequestException` sleeps `2 ** (attempt - 1)` seconds
and retries while `attempt < 3`, else returns `[]`. -/
def schedGo {α : Type} (attempts : Nat → Attempt) (body : SchedJson α)
    (attempt : Nat) : FetchOutcome (List α) :=
  match attempts attempt with
  | .success => .returns (normalizeSchedule body)
  | .httpError => .returns []
  | .netError =>
    if h : attempt < 3 then schedGo attempts body (attempt + 1)
    else .returns []
termination_by 3 - attempt

/-- `get_schedule_for_date` (`nhl_api_client.py`, lines 126-149): run the
attempt loop from attempt 1. -/
def get_schedule_for_date {α : Type} (attempts : Nat → Attempt)
    (body : SchedJson α) : FetchOutcome (List α) :=
  schedGo attempts body 1

/-- `get_game_boxscore` (`nhl_api_client.py`, lines 151-169). Its
`for attempt in range(1, 4)` loop never reaches a second iteration: the
success branch returns the payload; both exception handlers interpolate the
undefined name `game_pk` (the parameter is `game_id`) into their log-message
f-strings, so each raises `NameError` before reaching `return {}` or the
retry `continue`, and the `NameError` escapes to the caller. -/
def get_game_boxscore {α : Type} (attempts : Nat → Attempt) (body : α) :
    FetchOutcome α :=
  match attempts 1 with
  | .success => .returns body
  | .httpError => .raises "NameError: name game_pk is not defined"
  | .netError => .raises "NameError: name game_pk is not defined"

/-- `_get_injured_player_names` (`nhl_api_client.py`, lines 92-100): a single
attempt, no retry loop. On success the set of names is returned; on
`HTTPError` the error is logged and the function falls off the end, returning
`None` (modelled `Option.none`) rather than an empty set; any other
`requests` failure is not caught and propagates. -/
def getInjuredPlayerNames (attempt : Attempt) (names : List String) :
    FetchOutcome (Option (List String)) :=
  match attempt with
  | .success => .returns (some names)
  | .httpError => .returns none
  | .netError => .raises "requests.exceptions.RequestException"

/-! ## `backtest.py` — schedule/boxscore data and the Collect phase -/

/-- A skater entry of `playerByGameStats.<side>.<position>` as read by the
collect loop (`backtest.py`, lines 78-93). -/
structure BoxPlayer where
  playerId : Int
  name : String
  sweaterNumber : Option Int
  position : String
  goals : Int
deriving Repr, DecidableEq

/-- One side of `playerByGameStats` (`backtest.py`, lines 75-76): the code
iterates position groups `forwards` then `defense`. -/
structure TeamGameStats where
  forwards : List BoxPlayer
  defense : List BoxPlayer
deriving Repr, DecidableEq

/-- The fields of a boxscore the collect loop reads (`backtest.py`,
lines 61-76). A missing `playerByGameStats.<side>` is `none` (the code then
skips that side). An all-defaulted value (`gameState` and abbrevs empty,
stats `none`) also represents the empty dict `{}`. -/
structure Boxscore where
  gameDate : String := ""
  gameState : String := ""
  awayAbbrev : String := ""
  homeAbbrev : String := ""
  awayStats : Option TeamGameStats := none
  homeStats : Option TeamGameStats := none
deriving Repr, DecidableEq

/-- One `gameWeek` entry of a schedule response (`backtest.py`, lines 51-60):
a date (as a day number, see module header) and the ids of its games. -/
structure GameWeekEntry where
  date : Int
  games : List Int
deriving Repr, DecidableEq

/-- One element of the list `get_schedule_for_date` returns; the collect loop
reads its `gameWeek` list (`backtest.py`, line 51). -/
structure DateEntry where
  gameWeek : List GameWeekEntry
deriving Repr, DecidableEq

/-- One execution of the innermost collect-loop body for one player in one
game (`backtest.py`, lines 78-93), as a record of what that body reads. -/
structure Appearance where
  playerId : Int
  fullName : String
  jerseyNumber : Option Int
  position : String
  teamAbbrev : String
  goals : Int
deriving Repr, DecidableEq

/-- The `for team_side` / `for position` / `for player` loops for one side of
one game (`backtest.py`, lines 68-83): a side without player stats is skipped
(`if not team_stats: continue`); otherwise forwards then defense are visited
in list order. -/
def sideAppearances (abbr : String) : Option TeamGameStats → List Appearance
  | none => []
  | some ts =>
    (ts.forwards ++ ts.defense).map (fun bp =>
      { playerId := bp.playerId
        fullName := bp.name
        jerseyNumber := bp.sweaterNumber
        position := bp.position
        teamAbbrev := abbr
        goals := bp.goals })

/-- Appearances contributed by one game (`backtest.py`, lines 59-93): a game
in state `FUT` is skipped; otherwise the away side is processed, then the
home side. -/
def gameAppearances (box : Boxscore) : List Appearance :=
  if box.gameState = "FUT" then []
  else sideAppearances box.awayAbbrev box.awayStats ++ sideAppearances box.homeAbbrev box.homeStats

/-- Appearances contributed by one `gameWeek` entry (`backtest.py`,
lines 51-66): a game week dated after "today" is skipped; otherwise each
game's boxscore is fetched and processed in order. -/
def weekAppearances (today : Int) (boxFor : Int → Boxscore) (gw : GameWeekEntry) :
    List Appearance :=
  if gw.date > today then []
  else (gw.games.map (fun gid => gameAppearances (boxFor gid))).flatten

/-- The full stream of innermost loop-body executions for one backtest day
(`backtest.py`, lines 50-93), in source iteration order. -/
def dayAppearances (today : Int) (boxFor : Int → Boxscore) (sched : List DateEntry) :
    List Appearance :=
  ((sched.map (fun de => (de.gameWeek.map (weekAppearances today boxFor)).flatten))).flatten

/-- The value stored into `players_seen[player_id]` (`backtest.py`,
lines 84-91). `goalsToday` is the dict key `goals_today`. -/
structure SeenInfo where
  id : Int
  fullName : String
  jerseyNumber : Option Int
  position : String
  teamAbbrev : String
  goalsToday : Int
deriving Repr, DecidableEq

/-- `players_seen[player_id] = {...}` on an association list: an existing key
keeps its position and gets the new value (CPython dict update semantics); a
new key is appended. -/
def upsert (k : Int) (v : SeenInfo) : List (Int × SeenInfo) → List (Int × SeenInfo)
  | [] => [(k, v)]
  | (k₁, v₁) :: rest => if k₁ = k then (k, v) :: rest else (k₁, v₁) :: upsert k v rest

/-- `scorers.add(player_id)` on a duplicate-free list. -/
def addScorer (pid : Int) (s : List Int) : List Int :=
  if pid ∈ s then s else s ++ [pid]

/-- The dict value the innermost collect-loop body writes for one appearance
(`backtest.py`, lines 84-91). -/
def appearanceInfo (a : Appearance) : SeenInfo :=
  { id := a.playerId
    fullName := a.fullName
    jerseyNumber := a.jerseyNumber
    position := a.position
    teamAbbrev := a.teamAbbrev
    goalsToday := a.goals }

/-- The innermost collect-loop body (`backtest.py`, lines 84-93): overwrite
`players_seen[player_id]` with this game's entry, and add to `scorers` when
`goals and goals > 0` (for an int, exactly `goals > 0`). -/
def collectStep (st : List (Int × SeenInfo) × List Int) (a : Appearance) :
    List (Int × SeenInfo) × List Int :=
  (upsert a.playerId (appearanceInfo a) st.1,
   if a.goals > 0 then addScorer a.playerId st.2 else st.2)

/-- The whole Collect phase of one backtest day (`backtest.py`, lines 48-93):
`players_seen = {}` and `scorers = set()` threaded through every innermost
loop-body execution in order. -/
def collectDay (today : Int) (boxFor : Int → Boxscore) (sched : List DateEntry) :
    List (Int × SeenInfo) × List Int :=
  (dayAppearances today boxFor sched).foldl collectStep ([], [])

/-- Lookup in the `players_seen` association list. -/
def lookupSeen (pid : Int) (seen : List (Int × SeenInfo)) : Option SeenInfo :=
  (seen.find? (fun kv => kv.1 == pid)).map (fun kv => kv.2)

/-! ## `backtest.py` — stats rows, ranking, day results, report -/

/-- Modelled from the spec: `Player.dict()` lives in `player.py`, which is not
under `src/`. Per spec §4.4 (sort keys `goals`, `recent goals`, `goals/game`)
and §6 (report fields `id`, `name`), the dict row carries the player's
identifier, display name, and the three ranking statistics; `backtest.py`
line 114 then adds the `scored_today` flag. -/
structure StatsRow where
  id : Int
  name : String
  goals : Int
  recentGoals : Int
  goalsPerGame : ℚ
  scoredToday : Bool
deriving Repr, DecidableEq

/-- The row `player.dict()` plus `scored_today` contributes to `stats_list`
(`backtest.py`, lines 112-115). -/
def playerRow (p : Player) (scored : Bool) : StatsRow :=
  { id := p.id
    name := p.fullName
    goals := p.goals
    recentGoals := p.recentGoals
    goalsPerGame := p.goalsPerGame
    scoredToday := scored }

/-- The `Player(...)` construction at `backtest.py`, lines 99-110: first/last
name from the seen full name, jersey number defaulting to `0` when absent. -/
def mkSeenPlayer (pid : Int) (pinfo : SeenInfo) : Player :=
  { id := pid
    fullName := pinfo.fullName
    jerseyNumber := pinfo.jerseyNumber.getD 0
    position := pinfo.position
    teamAbbr := pinfo.teamAbbrev }

/-- The `for pid, pinfo in players_seen.items()` loop (`backtest.py`,
lines 96-118): construct a `Player` from the seen info (a missing jersey
number becomes `0`), populate its stats, and append its dict row. The
`except Exception: continue` around the body does not catch the `SystemExit`
raised by `exit()` inside `populate_player_stats`, so that path aborts the
whole run (`Except.error`). -/
def buildStatsList (season : Int) (injured : List String)
    (payloadFor : Int → LandingPayload) (scorers : List Int) :
    List (Int × SeenInfo) → Except String (List StatsRow)
  | [] => .ok []
  | (pid, pinfo) :: rest =>
    match populate_player_stats season injured (payloadFor pid) (mkSeenPlayer pid pinfo) with
    | .processExit => .error "SystemExit"
    | .notFound p =>
      match buildStatsList season injured payloadFor scorers rest with
      | .error e => .error e
      | .ok rows => .ok (playerRow p (scorers.contains pid) :: rows)
    | .ok p =>
      match buildStatsList season injured payloadFor scorers rest with
      | .error e => .error e
      | .ok rows => .ok (playerRow p (scorers.contains pid) :: rows)

/-- The three sort keys of `sort_values(by=['goals', 'recent goals',
'goals/game'])` (`backtest.py`, line 127). -/
def sortKey (r : StatsRow) : Int × Int × ℚ :=
  (r.goals, r.recentGoals, r.goalsPerGame)

/-- Lexicographic ≤ on the key triple. -/
def lexLE3 (x y : Int × Int × ℚ) : Bool :=
  if x.1 < y.1 then true
  else if y.1 < x.1 then false
  else if x.2.1 < y.2.1 then true
  else if y.2.1 < x.2.1 then false
  else decide (x.2.2 ≤ y.2.2)

/-- The comparator realised by `ascending=[False, False, False]`: row `a` may
precede row `b` when `a`'s key triple is lexicographically ≥ `b`'s. -/
def keyDescLE (a b : StatsRow) : Bool :=
  lexLE3 (sortKey b) (sortKey a)

/-- `df.sort_values(by=['goals', 'recent goals', 'goals/game'],
ascending=[False, False, False])` (`backtest.py`, line 127). With several
`by` columns pandas sorts through `np.lexsort`, which is stable, and realises
a descending column by inverting that column's comparisons without disturbing
stability; embedded as a stable merge sort under the descending lexicographic
comparator. -/
def rank (rows : List StatsRow) : List StatsRow :=
  rows.mergeSort keyDescLE

/-- One element of the `picks` list of a day result (`backtest.py`,
line 134). -/
structure Pick where
  id : Int
  name : String
  scored : Bool
deriving Repr, DecidableEq

/-- One element of `results` (`backtest.py`, line 139). -/
structure DayResult where
  date : Int
  picks : List Pick
  correct : Nat
  total : Nat
deriving Repr, DecidableEq

/-- `top_picks = sorted_df.head(top_n)` and the scoring loop (`backtest.py`,
lines 128-139): every row of `top_picks` becomes a pick, `total` counts them
all, and `correct` counts those with `scored_today` set. -/
def mkDayResult (d : Int) (stats : List StatsRow) (topn : Nat) : DayResult :=
  let top := (rank stats).take topn
  { date := d
    picks := top.map (fun r => { id := r.id, name := r.name, scored := r.scoredToday })
    correct := (top.filter (fun r => r.scoredToday)).length
    total := top.length }

/-- One iteration of the `while cur <= e_date` loop (`backtest.py`,
lines 38-141): an empty schedule skips the day with no record; otherwise
collect, build the stats rows (a `SystemExit` escapes), skip the day when the
frame is empty, else rank and score. -/
def processDay (today season : Int) (injured : List String)
    (schedFor : Int → List DateEntry) (boxFor : Int → Boxscore)
    (payloadFor : Int → LandingPayload) (topn : Nat) (d : Int) :
    Except String (Option DayResult) :=
  let sched := schedFor d
  if sched.isEmpty then .ok none
  else
    let cs := collectDay today boxFor sched
    match buildStatsList season injured payloadFor cs.2 cs.1 with
    | .error e => .error e
    | .ok stats =>
      if stats.isEmpty then .ok none
      else .ok (some (mkDayResult d stats topn))

/-- The day numbers visited by `while cur <= e_date: ...; cur += timedelta(days=1)`
(`backtest.py`, lines 37-141): the inclusive range from `s` to `e`. -/
def backtestDays (s e : Int) : List Int :=
  (List.range (e + 1 - s).toNat).map (fun (i : Nat) => s + (i : Int))

/-- Fold the day loop over a list of days, accumulating the `results` list;
a day that raises aborts the run. -/
def runDays (today season : Int) (injured : List String)
    (schedFor : Int → List DateEntry) (boxFor : Int → Boxscore)
    (payloadFor : Int → LandingPayload) (topn : Nat) :
    List Int → Except String (List DayResult)
  | [] => .ok []
  | d :: rest =>
    match processDay today season injured schedFor boxFor payloadFor topn d with
    | .error e => .error e
    | .ok none => runDays today season injured schedFor boxFor payloadFor topn rest
    | .ok (some r) =>
      match runDays today season injured schedFor boxFor payloadFor topn rest with
      | .error e => .error e
      | .ok rs => .ok (r :: rs)

/-- `run_nhl_backtest` (`backtest.py`, lines 31-141) up to the CSV write: the
accumulated `results` list over the inclusive date range. -/
def run_nhl_backtest (today season : Int) (injured : List String)
    (schedFor : Int → List DateEntry) (boxFor : Int → Boxscore)
    (payloadFor : Int → LandingPayload) (topn : Nat) (s e : Int) :
    Except String (List DayResult) :=
  runDays today season injured schedFor boxFor payloadFor topn (backtestDays s e)

/-- The CSV header row (`backtest.py`, line 147). -/
def csvHeader : List String :=
  ["date"]
    ++ (List.range 3).map (fun i => "pick" ++ toString (i + 1) ++ "_id")
    ++ (List.range 3).map (fun i => "pick" ++ toString (i + 1) ++ "_name")
    ++ ["correct", "total"]

/-- One data row of the CSV (`backtest.py`, lines 149-163): the date, then
for `i in range(3)` the i-th pick's id or `''`, then likewise the names, then
`correct` and `total`. -/
def csvRow (r : DayResult) : List String :=
  [toString r.date]
    ++ (List.range 3).map (fun i =>
        match r.picks[i]? with
        | some p => toString p.id
        | none => "")
    ++ (List.range 3).map (fun i =>
        match r.picks[i]? with
        | some p => p.name
        | none => "")
    ++ [toString r.correct, toString r.total]

/-- The whole CSV written at `backtest.py`, lines 143-163. -/
def csvReport (results : List DayResult) : List (List String) :=
  csvHeader :: results.map csvRow

/-- The default date range of the CLI (`backtest.py`, lines 178-183):
`end = today`, `start = today - timedelta(days=14)`. -/
def defaultStart (today : Int) : Int :=
  today - 14

/-- The default end date of the CLI (`backtest.py`, lines 180-183). -/
def defaultEnd (today : Int) : Int :=
  today

/-- The season-record selection rule as worded by the spec (§3 invariant):
scan the rows from the most recent (last element) backward, keep scanning
only while the season identifier matches, and take the first scanned row
whose league is the NHL. Used to compare `findCurrSeasonTotals` against the
spec's wording. -/
def specSeasonScan (season : Int) (rows : List SeasonRow) : Option SeasonRow :=
  (rows.reverse.takeWhile (fun r => r.season == season)).find?
    (fun r => r.leagueAbbrev == "NHL")

/-- Two fully tied candidate rows, used to exhibit stability concretely. -/
def tiedRowA : StatsRow :=
  { id := 10, name := "A A", goals := 4, recentGoals := 2, goalsPerGame := 1/2,
    scoredToday := false }

/-- Second of the two fully tied candidate rows. -/
def tiedRowB : StatsRow :=
  { id := 11, name := "B B", goals := 4, recentGoals := 2, goalsPerGame := 1/2,
    scoredToday := true }

/-- A season row whose `gamesPlayed` is `0` (matching season and league). -/
def zeroGamesRow : SeasonRow :=
  { season := 20242025, leagueAbbrev := "NHL", goals := 0, points := 0,
    shots := 0, shootingPctg := 0, plusMinus := 0, avgToi := "0:00",
    gamesPlayed := 0 }

/-- A landing payload whose matching season record has `gamesPlayed = 0`. -/
def zeroGamesPayload : LandingPayload :=
  { seasonTotals := [zeroGamesRow], last5Games := [] }

/-- A freshly constructed player, as `backtest.py` lines 102-110 build one. -/
def freshPlayer : Player :=
  { id := 1, fullName := "Test Player", jerseyNumber := 1, position := "C",
    teamAbbr := "TOR" }

/-- First boxscore of a doubleheader day: player 7 scores 2 goals. -/
def doubleBoxFirst : Boxscore :=
  { gameState := "OFF", awayAbbrev := "AAA",
    awayStats := some ⟨[⟨7, "Multi Gamer", some 10, "C", 2⟩], []⟩ }

/-- Second boxscore of the doubleheader: the same player 7, 0 goals. -/
def doubleBoxSecond : Boxscore :=
  { gameState := "OFF", awayAbbrev := "BBB",
    awayStats := some ⟨[⟨7, "Multi Gamer", some 10, "C", 0⟩], []⟩ }

/-- Boxscore lookup for the doubleheader day: game 1, then game 2. -/
def doubleBoxFor : Int → Boxscore :=
  fun gid => if gid = 1 then doubleBoxFirst else doubleBoxSecond

/-- Schedule of the doubleheader day: one game week with games 1 and 2. -/
def doubleSched : List DateEntry :=
  [⟨[⟨100, [1, 2]⟩]⟩]

/-- The seen-info of a player whose landing payload has no season rows. -/
def ghostInfo : SeenInfo :=
  { id := 7, fullName := "Ghost Skater", jerseyNumber := some 9, position := "C",
    teamAbbrev := "AAA", goalsToday := 1 }

/-- A `players_seen` holding only that player. -/
def ghostSeen : List (Int × SeenInfo) :=
  [(7, ghostInfo)]

/-- A payload source whose every landing payload has empty `seasonTotals`. -/
def emptyTotalsPayloadFor : Int → LandingPayload :=
  fun _ => { seasonTotals := [], last5Games := [] }

/-- The zero-valued stats row the backtest builds for that player. -/
def ghostRow : StatsRow :=
  { id := 7, name := "Ghost Skater", goals := 0, recentGoals := 0,
    goalsPerGame := 0, scoredToday := true }

/-- A single candidate row, used to exercise the report shape concretely. -/
def soloRow : StatsRow :=
  { id := 3, name := "Solo Skater", goals := 1, recentGoals := 0,
    goalsPerGame := 0, scoredToday := true }

/-! ## Helper lemmas -/

theorem lexLE3_refl (x : Int × Int × ℚ) : lexLE3 x x = true := by
  simp [lexLE3]

theorem lexLE3_total (x y : Int × Int × ℚ) : lexLE3 x y || lexLE3 y x := by
  unfold lexLE3
  split_ifs <;> simp_all
  exact le_total x.2.2 y.2.2

theorem lexLE3_trans (x y z : Int × Int × ℚ) (h₁ : lexLE3 x y) (h₂ : lexLE3 y z) :
    lexLE3 x z := by
  unfold lexLE3 at h₁ h₂ ⊢
  split_ifs at h₁ h₂ ⊢ <;> simp_all <;> first
    | omega
    | linarith

theorem keyDescLE_total (a b : StatsRow) : keyDescLE a b || keyDescLE b a :=
  lexLE3_total (sortKey b) (sortKey a)

theorem keyDescLE_trans (a b c : StatsRow) (h₁ : keyDescLE a b) (h₂ : keyDescLE b c) :
    keyDescLE a c :=
  lexLE3_trans (sortKey c) (sortKey b) (sortKey a) h₂ h₁

theorem scanRows_eq_takeWhile_find (season : Int) (l : List SeasonRow) :
    scanRows season l
      = (l.takeWhile (fun r => r.season == season)).find?
          (fun r => r.leagueAbbrev == "NHL") := by
  induction l with
  | nil => rfl
  | cons r rest ih =>
    by_cases h : r.season = season
    · by_cases h₂ : r.leagueAbbrev = "NHL"
      · simp [scanRows, h, h₂]
      · simp [scanRows, h, h₂, ih]
    · simp [scanRows, h]


theorem mem_addScorer (p q : Int) (s : List Int) :
    p ∈ addScorer q s ↔ p ∈ s ∨ q = p := by
  unfold addScorer
  split_ifs with h
  · constructor
    · exact fun hp => Or.inl hp
    · rintro (hp | rfl)
      · exact hp
      · exact h
  · simp [List.mem_append, eq_comm]

theorem scorers_foldl (apps : List Appearance)
    (st : List (Int × SeenInfo) × List Int) (pid : Int) :
    (pid ∈ (apps.foldl collectStep st).2)
      ↔ pid ∈ st.2 ∨ ∃ a ∈ apps, a.playerId = pid ∧ 0 < a.goals := by
  induction apps generalizing st with
  | nil => simp
  | cons a rest ih =>
    rw [List.foldl_cons, ih]
    by_cases hg : a.goals > 0
    · simp only [collectStep, if_pos hg, mem_addScorer, List.mem_cons]
      constructor
      · rintro ((hs | rfl) | ⟨x, hx, hpx, hgx⟩)
        · exact Or.inl hs
        · exact Or.inr ⟨a, Or.inl rfl, rfl, hg⟩
        · exact Or.inr ⟨x, Or.inr hx, hpx, hgx⟩
      · rintro (hs | ⟨x, (rfl | hx), hpx, hgx⟩)
        · exact Or.inl (Or.inl hs)
        · exact Or.inl (Or.inr hpx)
        · exact Or.inr ⟨x, hx, hpx, hgx⟩
    · simp only [collectStep, if_neg hg, List.mem_cons]
      constructor
      · rintro (hs | ⟨x, hx, hpx, hgx⟩)
        · exact Or.inl hs
        · exact Or.inr ⟨x, Or.inr hx, hpx, hgx⟩
      · rintro (hs | ⟨x, (rfl | hx), hpx, hgx⟩)
        · exact Or.inl hs
        · exact absurd hgx hg
        · exact Or.inr ⟨x, hx, hpx, hgx⟩

theorem lookupSeen_cons (pid k : Int) (v : SeenInfo) (tl : List (Int × SeenInfo)) :
    lookupSeen pid ((k, v) :: tl)
      = if k = pid then some v else lookupSeen pid tl := by
  unfold lookupSeen
  by_cases h : k = pid
  · rw [List.find?_cons_of_pos _ (by simp [h]), if_pos h]
    rfl
  · rw [List.find?_cons_of_neg _ (by simp [h]), if_neg h]

theorem lookupSeen_upsert (pid k : Int) (v : SeenInfo)
    (seen : List (Int × SeenInfo)) :
    lookupSeen pid (upsert k v seen)
      = if k = pid then some v else lookupSeen pid seen := by
  induction seen with
  | nil =>
    unfold upsert
    rw [lookupSeen_cons]
  | cons hd tl ih =>
    obtain ⟨k₁, v₁⟩ := hd
    unfold upsert
    by_cases h₁ : k₁ = k
    · subst h₁
      rw [if_pos rfl]
      simp only [lookupSeen_cons]
      by_cases h : k₁ = pid
      · simp [h]
      · simp [h]
    · rw [if_neg h₁]
      simp only [lookupSeen_cons, ih]
      by_cases h : k₁ = pid <;> by_cases h₂ : k = pid <;>
        first
        | (simp [h, h₂]; omega)
        | simp [h, h₂]

theorem lookupSeen_foldl (apps : List Appearance)
    (st : List (Int × SeenInfo) × List Int) (pid : Int) :
    lookupSeen pid (apps.foldl collectStep st).1
      = ((apps.filter (fun a => a.playerId == pid)).getLast?).elim
          (lookupSeen pid st.1) (fun a => some (appearanceInfo a)) := by
  induction apps generalizing st with
  | nil => simp
  | cons a rest ih =>
    rw [List.foldl_cons, ih]
    by_cases h : a.playerId = pid
    · rw [List.filter_cons_of_pos (by simp [h]), List.getLast?_cons]
      cases hlast : (rest.filter (fun a => a.playerId == pid)).getLast? with
      | none =>
        simp only [hlast, Option.getD_none, Option.elim_none, Option.elim_some]
        show lookupSeen pid (upsert a.playerId (appearanceInfo a) st.1) = _
        rw [lookupSeen_upsert, if_pos h]
      | some b =>
        simp [hlast]
    · rw [List.filter_cons_of_neg (by simp [h])]
      cases hlast : (rest.filter (fun a => a.playerId == pid)).getLast? with
      | none =>
        simp only [hlast, Option.elim_none]
        show lookupSeen pid (upsert a.playerId (appearanceInfo a) st.1) = _
        rw [lookupSeen_upsert, if_neg h]
      | some b =>
        simp [hlast]

theorem sum_pos_iff_exists_pos (l : List Int) (h : ∀ x ∈ l, 0 ≤ x) :
    0 < l.sum ↔ ∃ x ∈ l, 0 < x := by
  induction l with
  | nil => simp
  | cons x t ih =>
    have hx : 0 ≤ x := h x (List.mem_cons_self x t)
    have ht : ∀ y ∈ t, 0 ≤ y := fun y hy => h y (List.mem_cons_of_mem x hy)
    have hts : 0 ≤ t.sum := List.sum_nonneg ht
    rw [List.sum_cons]
    constructor
    · intro hpos
      by_cases hx0 : 0 < x
      · exact ⟨x, List.mem_cons_self x t, hx0⟩
      · have : 0 < t.sum := by omega
        obtain ⟨y, hy, hy0⟩ := (ih ht).mp this
        exact ⟨y, List.mem_cons_of_mem x hy, hy0⟩
    · rintro ⟨y, hy, hy0⟩
      rcases List.mem_cons.mp hy with rfl | hyt
      · omega
      · have : 0 < t.sum := (ih ht).mpr ⟨y, hyt, hy0⟩
        omega

/-! ## Claims -/

/-- C9: for every landing payload, the season record is selected by scanning
`seasonTotals` from the most recent (last) row backward, accepting the first
row whose season equals the active season and whose league is the NHL,
stopping the scan at the first row whose season does not match, and yielding
the not-found signal when nothing is accepted: `findCurrSeasonTotals`
coincides with the spec-worded scan on every input. -/
theorem findCurrSeasonTotals_eq_spec (season : Int) (rows : List SeasonRow) :
    findCurrSeasonTotals season rows = specSeasonScan season rows :=
  scanRows_eq_takeWhile_find season rows.reverse

/-- C5: ranking is a permutation of its input candidate set — the multiset of
player identifiers is unchanged, no player is added or dropped. -/
theorem rank_perm_ids (l : List StatsRow) :
    List.Perm ((rank l).map StatsRow.id) (l.map StatsRow.id) :=
  (List.mergeSort_perm l keyDescLE).map StatsRow.id

/-- C4: the ranking orders candidates by season goals, then recent goals,
then goals per game, all descending (every adjacent pair of the output is
related by the descending lexicographic comparator, which is total), and the
sort is stable: two candidates fully tied on all three keys keep their
original relative order. -/
theorem rank_sorted_total_stable (l : List StatsRow) (a b : StatsRow) :
    (rank l).Pairwise (fun x y => keyDescLE x y = true)
      ∧ (keyDescLE a b = true ∨ keyDescLE b a = true)
      ∧ (sortKey a = sortKey b → List.Sublist [a, b] l → List.Sublist [a, b] (rank l)) := by
  refine ⟨?_, ?_, ?_⟩
  · simpa using List.sorted_mergeSort keyDescLE_trans keyDescLE_total l
  · simpa using keyDescLE_total a b
  · intro hk hsub
    refine List.pair_sublist_mergeSort keyDescLE_trans keyDescLE_total ?_ hsub
    show keyDescLE a b = true
    unfold keyDescLE
    rw [hk]
    exact lexLE3_refl (sortKey b)

/-- Witness for C4 at a concrete fully tied pair: the hypotheses of the
stability clause hold for `[tiedRowA, tiedRowB]` and the pair keeps its
order in the ranked output. -/
theorem rank_sorted_total_stable_witness :
    sortKey tiedRowA = sortKey tiedRowB
      ∧ List.Sublist [tiedRowA, tiedRowB] (rank [tiedRowA, tiedRowB]) := by
  refine ⟨rfl, ?_⟩
  exact (rank_sorted_total_stable [tiedRowA, tiedRowB] tiedRowA tiedRowB).2.2
    rfl (List.Sublist.refl _)

/-- C1 (divergence at the failing input): for a landing payload whose matching
NHL season record has `gamesPlayed = 0`, the aggregator does not leave
`goalsPerGame` undefined and keep the player — it evaluates
`goals / gamesPlayed` anyway, the `ZeroDivisionError` lands in the blanket
`except Exception` handler, and `exit()` terminates the process, so the
player never enters the candidate set. -/
theorem populate_zero_games_exits :
    populate_player_stats 20242025 [] zeroGamesPayload freshPlayer
      = .processExit := by
  decide

/-- C3 (divergence at the failing inputs): the gateway read operations do not
all degrade to an empty result. `get_game_boxscore` raises a `NameError` to
its caller on an HTTP application error and on a network-level error — both
of its handlers interpolate the undefined name `game_pk` — and performs no
retry; `_get_injured_player_names` returns `None` (not an empty set) on an
HTTP application error, and network-level errors are not caught at all and
propagate. -/
theorem gateway_failures_raise :
    get_game_boxscore (fun _ => Attempt.httpError) ({} : Boxscore)
        = .raises "NameError: name game_pk is not defined"
      ∧ get_game_boxscore (fun _ => Attempt.netError) ({} : Boxscore)
        = .raises "NameError: name game_pk is not defined"
      ∧ getInjuredPlayerNames .httpError [] = .returns none
      ∧ getInjuredPlayerNames .netError []
        = .raises "requests.exceptions.RequestException" :=
  ⟨rfl, rfl, rfl, rfl⟩

/-- C7: when the start date is strictly after the end date, the backtest
visits zero days, the results list is empty, the report consists of the
header row only, and no error is raised. -/
theorem backtest_empty_range (today season s e : Int) (injured : List String)
    (schedFor : Int → List DateEntry) (boxFor : Int → Boxscore)
    (payloadFor : Int → LandingPayload) (topn : Nat) (h : e < s) :
    backtestDays s e = []
      ∧ run_nhl_backtest today season injured schedFor boxFor payloadFor topn s e
          = .ok []
      ∧ csvReport [] = [csvHeader] := by
  have hd : backtestDays s e = [] := by
    unfold backtestDays
    have h0 : (e + 1 - s).toNat = 0 := by omega
    rw [h0]
    rfl
  refine ⟨hd, ?_, rfl⟩
  unfold run_nhl_backtest
  rw [hd]
  rfl

/-- Witness for C7 at the concrete inverted range `start = 2 > 1 = end`. -/
theorem backtest_empty_range_witness :
    (1 : Int) < 2
      ∧ backtestDays 2 1 = []
      ∧ run_nhl_backtest 0 0 [] (fun _ => []) (fun _ => {}) (fun _ => ⟨[], []⟩) 3 2 1
          = .ok []
      ∧ csvReport [] = [csvHeader] := by
  have h := backtest_empty_range 0 0 2 1 [] (fun _ => []) (fun _ => {})
    (fun _ => ⟨[], []⟩) 3 (by decide)
  exact ⟨by decide, h.1, h.2.1, h.2.2⟩

/-- C8 (divergence): with both CLI dates omitted, the default range runs from
`today - timedelta(days=14)` to `today` inclusive — 15 calendar days (today
and the 14 preceding), not the 14 days the code comment announces. -/
theorem default_range_is_15_days (t : Int) :
    (backtestDays (defaultStart t) (defaultEnd t)).length = 15 := by
  simp only [backtestDays, defaultStart, defaultEnd, List.length_map,
    List.length_range]
  omega

/-- C6 (amended): the collect phase does not keep a per-player running total —
the stored `goals_today` entry is overwritten by each later appearance, so it
ends as the goals of the player's last processed appearance of the day; the
scorer set is marked per appearance when that game's goals are positive,
which — goal counts being non-negative — coincides with the player's day
total across all boxscores being positive. -/
theorem collect_scorer_iff_and_last_write (today : Int) (boxFor : Int → Boxscore)
    (sched : List DateEntry) (pid : Int) :
    (pid ∈ (collectDay today boxFor sched).2
        ↔ ∃ a ∈ dayAppearances today boxFor sched, a.playerId = pid ∧ 0 < a.goals)
      ∧ ((∀ a ∈ dayAppearances today boxFor sched, 0 ≤ a.goals) →
          (pid ∈ (collectDay today boxFor sched).2
            ↔ 0 < (((dayAppearances today boxFor sched).filter
                (fun a => a.playerId == pid)).map Appearance.goals).sum))
      ∧ lookupSeen pid (collectDay today boxFor sched).1
          = (((dayAppearances today boxFor sched).filter
              (fun a => a.playerId == pid)).getLast?).map appearanceInfo := by
  refine ⟨?_, ?_, ?_⟩
  · unfold collectDay
    rw [scorers_foldl]
    simp
  · intro hnn
    unfold collectDay
    rw [scorers_foldl]
    simp only [List.not_mem_nil, false_or]
    rw [sum_pos_iff_exists_pos]
    · constructor
      · rintro ⟨a, ha, hpa, hga⟩
        exact ⟨a.goals, List.mem_map_of_mem _ (List.mem_filter.mpr ⟨ha, by simp [hpa]⟩), hga⟩
      · rintro ⟨g, hg, hg0⟩
        obtain ⟨a, haf, rfl⟩ := List.mem_map.mp hg
        obtain ⟨ha, hpa⟩ := List.mem_filter.mp haf
        exact ⟨a, ha, by simpa using hpa, hg0⟩
    · intro x hx
      obtain ⟨a, haf, rfl⟩ := List.mem_map.mp hx
      exact hnn a (List.mem_filter.mp haf).1
  · unfold collectDay
    rw [lookupSeen_foldl]
    cases hlast : ((dayAppearances today boxFor sched).filter
        (fun a => a.playerId == pid)).getLast? with
    | none => simp [lookupSeen]
    | some b => simp

/-- Witness for C6's amended statement on the doubleheader day: all goal
counts are non-negative and player 7 is marked a scorer exactly because the
day total across both games is positive. -/
theorem collect_scorer_iff_witness :
    (∀ a ∈ dayAppearances 100 doubleBoxFor doubleSched, 0 ≤ a.goals)
      ∧ ((7 : Int) ∈ (collectDay 100 doubleBoxFor doubleSched).2
          ↔ 0 < (((dayAppearances 100 doubleBoxFor doubleSched).filter
              (fun a => a.playerId == 7)).map Appearance.goals).sum) := by
  refine ⟨by decide, ?_⟩
  exact (collect_scorer_iff_and_last_write 100 doubleBoxFor doubleSched 7).2.1
    (by decide)

/-- C6 (counterexample): on a day where player 7 appears in two boxscores
with 2 goals then 0 goals, the day total across all boxscores is 2, but the
stored per-player daily goal count is 0 (the second game overwrote the
first) — the count is not a running total accumulated across the day's
boxscores. -/
theorem collect_overwrites_instead_of_accumulating :
    (((dayAppearances 100 doubleBoxFor doubleSched).filter
        (fun a => a.playerId == 7)).map Appearance.goals).sum = 2
      ∧ (lookupSeen 7 (collectDay 100 doubleBoxFor doubleSched).1).map
          SeenInfo.goalsToday = some 0
      ∧ (7 : Int) ∈ (collectDay 100 doubleBoxFor doubleSched).2
      ∧ (some (0 : Int) ≠ some (2 : Int)) := by
  decide

theorem buildStatsList_cons (season : Int) (injured : List String)
    (payloadFor : Int → LandingPayload) (scorers : List Int)
    (k : Int) (v : SeenInfo) (tl : List (Int × SeenInfo)) :
    buildStatsList season injured payloadFor scorers ((k, v) :: tl)
      = match populate_player_stats season injured (payloadFor k) (mkSeenPlayer k v) with
        | .processExit => .error "SystemExit"
        | .notFound p =>
          match buildStatsList season injured payloadFor scorers tl with
          | .error e => .error e
          | .ok rows => .ok (playerRow p (scorers.contains k) :: rows)
        | .ok p =>
          match buildStatsList season injured payloadFor scorers tl with
          | .error e => .error e
          | .ok rows => .ok (playerRow p (scorers.contains k) :: rows) :=
  rfl

/-- C2 (amended): when a player's season-totals lookup finds no row matching
the active season and the NHL, the aggregator only logs and returns with the
player record left at its zero-valued defaults, and the backtest caller does
not drop the player: whenever the stats-list construction completes, it
contains a row for that player with goals = 0 (and zero recent goals and
rate), and that row appears in the ranked output. -/
theorem buildStatsList_keeps_missing_player (season : Int) (injured : List String)
    (payloadFor : Int → LandingPayload) (scorers : List Int)
    (seen : List (Int × SeenInfo)) (rows : List StatsRow) (pid : Int)
    (info : SeenInfo) (hmem : (pid, info) ∈ seen)
    (hnf : findCurrSeasonTotals season (payloadFor pid).seasonTotals = none)
    (hok : buildStatsList season injured payloadFor scorers seen = .ok rows) :
    ∃ r, r ∈ rows ∧ r.id = pid ∧ r.goals = 0 ∧ r.recentGoals = 0
      ∧ r.goalsPerGame = 0 ∧ r ∈ rank rows := by
  induction seen generalizing rows with
  | nil => cases hmem
  | cons hd tl ih =>
    obtain ⟨k, v⟩ := hd
    rw [buildStatsList_cons] at hok
    rcases List.mem_cons.mp hmem with heq | htl
    · injection heq with h1 h2
      subst h1
      subst h2
      have hpop : populate_player_stats season injured (payloadFor pid)
          (mkSeenPlayer pid info) = .notFound (mkSeenPlayer pid info) := by
        unfold populate_player_stats
        rw [hnf]
      rw [hpop] at hok
      cases hbs : buildStatsList season injured payloadFor scorers tl with
      | error e =>
        rw [hbs] at hok
        simp at hok
      | ok tlRows =>
        rw [hbs] at hok
        simp only [Except.ok.injEq] at hok
        subst hok
        refine ⟨playerRow (mkSeenPlayer pid info) (scorers.contains pid),
          List.mem_cons_self _ _, rfl, rfl, rfl, rfl, ?_⟩
        simp [rank]
    · cases hpop : populate_player_stats season injured (payloadFor k)
          (mkSeenPlayer k v) with
      | processExit =>
        rw [hpop] at hok
        simp at hok
      | notFound p =>
        rw [hpop] at hok
        cases hbs : buildStatsList season injured payloadFor scorers tl with
        | error e =>
          rw [hbs] at hok
          simp at hok
        | ok tlRows =>
          rw [hbs] at hok
          simp only [Except.ok.injEq] at hok
          subst hok
          obtain ⟨r, hr, hid, hg, hrg, hgg, _⟩ := ih tlRows htl hbs
          exact ⟨r, List.mem_cons_of_mem _ hr, hid, hg, hrg, hgg, by simp [rank, hr]⟩
      | ok p =>
        rw [hpop] at hok
        cases hbs : buildStatsList season injured payloadFor scorers tl with
        | error e =>
          rw [hbs] at hok
          simp at hok
        | ok tlRows =>
          rw [hbs] at hok
          simp only [Except.ok.injEq] at hok
          subst hok
          obtain ⟨r, hr, hid, hg, hrg, hgg, _⟩ := ih tlRows htl hbs
          exact ⟨r, List.mem_cons_of_mem _ hr, hid, hg, hrg, hgg, by simp [rank, hr]⟩

/-- C2 (counterexample): a concrete day where player 7's landing payload has
no season rows at all — the aggregation does not signal not-found to the
caller, the caller does not drop the player, and the ranked output contains
their fabricated zero-goal row. -/
theorem missing_player_ranked_with_zero_goals :
    buildStatsList 20242025 [] emptyTotalsPayloadFor [7] ghostSeen = .ok [ghostRow]
      ∧ ghostRow.goals = 0
      ∧ ghostRow ∈ rank [ghostRow] := by
  refine ⟨rfl, rfl, ?_⟩
  simp [rank]

/-- Witness for C2's amended statement at the concrete inputs of the
counterexample day. -/
theorem buildStatsList_keeps_missing_player_witness :
    ((7, ghostInfo) ∈ ghostSeen
        ∧ findCurrSeasonTotals 20242025 (emptyTotalsPayloadFor 7).seasonTotals = none
        ∧ buildStatsList 20242025 [] emptyTotalsPayloadFor [7] ghostSeen
            = .ok [ghostRow])
      ∧ (∃ r, r ∈ [ghostRow] ∧ r.id = 7 ∧ r.goals = 0 ∧ r.recentGoals = 0
          ∧ r.goalsPerGame = 0 ∧ r ∈ rank [ghostRow]) := by
  refine ⟨⟨by decide, rfl, rfl⟩, ?_⟩
  exact buildStatsList_keeps_missing_player 20242025 [] emptyTotalsPayloadFor [7]
    ghostSeen [ghostRow] 7 ghostInfo (by decide) rfl rfl

theorem csvRow_eq (r : DayResult) :
    csvRow r
      = [toString r.date,
          (match r.picks[0]? with | some p => toString p.id | none => ""),
          (match r.picks[1]? with | some p => toString p.id | none => ""),
          (match r.picks[2]? with | some p => toString p.id | none => ""),
          (match r.picks[0]? with | some p => p.name | none => ""),
          (match r.picks[1]? with | some p => p.name | none => ""),
          (match r.picks[2]? with | some p => p.name | none => ""),
          toString r.correct, toString r.total] :=
  rfl

/-- C10: every CSV data row has exactly 9 fields — the date, 3 pick-id
columns and 3 pick-name columns (fixed regardless of the configured top-N),
then `correct` and `total`; a missing i-th pick (i < 3) is emitted as the
empty string in both of its columns, a present i-th pick (i < 3) is emitted
as its id and name, and `correct`/`total` are computed over all `top_n`
picks (`total = min top_n |candidates|`), so `total` can exceed the number
of pick columns shown. -/
theorem csv_row_fixed_width (d : Int) (stats : List StatsRow) (n : Nat) :
    (csvRow (mkDayResult d stats n)).length = 9
      ∧ (mkDayResult d stats n).total = min n stats.length
      ∧ (mkDayResult d stats n).picks.length = min n stats.length
      ∧ (∀ i : Nat, i < 3 → (mkDayResult d stats n).picks.length ≤ i →
          (csvRow (mkDayResult d stats n)).getD (1 + i) "x" = ""
            ∧ (csvRow (mkDayResult d stats n)).getD (4 + i) "x" = "")
      ∧ (∀ i : Nat, i < 3 → ∀ p, (mkDayResult d stats n).picks[i]? = some p →
          (csvRow (mkDayResult d stats n)).getD (1 + i) "x" = toString p.id
            ∧ (csvRow (mkDayResult d stats n)).getD (4 + i) "x" = p.name)
      ∧ (csvRow (mkDayResult d stats n)).getD 7 "x"
          = toString (mkDayResult d stats n).correct
      ∧ (csvRow (mkDayResult d stats n)).getD 8 "x"
          = toString (mkDayResult d stats n).total := by
  refine ⟨?_, ?_, ?_, ?_, ?_, ?_, ?_⟩
  · rw [csvRow_eq]
    rfl
  · simp [mkDayResult, rank]
  · simp [mkDayResult, rank]
  · intro i h3 hlen
    have hnone : (mkDayResult d stats n).picks[i]? = none :=
      List.getElem?_eq_none hlen
    interval_cases i <;>
      exact ⟨by simp [csvRow_eq, hnone], by simp [csvRow_eq, hnone]⟩
  · intro i h3 p hp
    interval_cases i <;>
      exact ⟨by simp [csvRow_eq, hp], by simp [csvRow_eq, hp]⟩
  · rw [csvRow_eq]
    rfl
  · rw [csvRow_eq]
    rfl

/-- Witness for C10 on a one-candidate day with `top_n = 4`: pick columns 2
and 3 are emitted as empty strings, pick column 1 carries the single pick. -/
theorem csv_row_fixed_width_witness :
    ((1 : Nat) < 3 ∧ (mkDayResult 5 [soloRow] 4).picks.length ≤ 1
        ∧ (csvRow (mkDayResult 5 [soloRow] 4)).getD 2 "x" = ""
        ∧ (csvRow (mkDayResult 5 [soloRow] 4)).getD 5 "x" = "")
      ∧ ((0 : Nat) < 3
        ∧ (mkDayResult 5 [soloRow] 4).picks[0]? = some ⟨3, "Solo Skater", true⟩
        ∧ (csvRow (mkDayResult 5 [soloRow] 4)).getD 1 "x" = toString (3 : Int)) := by
  have hlen : (mkDayResult 5 [soloRow] 4).picks.length ≤ 1 := by
    simp [mkDayResult, rank]
  have hp : (mkDayResult 5 [soloRow] 4).picks[0]? = some ⟨3, "Solo Skater", true⟩ := by
    simp [mkDayResult, rank, soloRow]
  have h := csv_row_fixed_width 5 [soloRow] 4
  exact ⟨⟨by decide, hlen, (h.2.2.2.1 1 (by decide) hlen).1,
      (h.2.2.2.1 1 (by decide) hlen).2⟩,
    ⟨by decide, hp, (h.2.2.2.2.1 0 (by decide) _ hp).1⟩⟩

end Autopicker
